import Mathlib

/-!
Verification development for the `sessions-scripts` repository.

The repository consists of four near-duplicate Node.js entry scripts that
build a "session" command, optionally sign a subset of its fields with an
external-chain wallet, embed that signature, produce a validator ("dag4")
proof over the whole JSON-serialized command, and POST the resulting
envelope to `<endpoint>/data`.

Shallow embedding conventions:
- JavaScript objects that travel to JSON are modelled by the `Json`
  inductive below; object key order is the JS insertion order.
- JS numbers used by the scripts are non-negative integers (snapshot
  ordinals, counters), so `Json.num` carries a `Nat` and number rendering
  is decimal, as JS template literals and `JSON.stringify` render them.
- Byte buffers (`Buffer.from(s, 'utf8')`, `ethers.utils.toUtf8Bytes`) are
  modelled as `List Nat` of UTF-8 code units via `utf8Bytes`.
- The asynchronous validator signing capability
  `dag4.keyStore.dataSign(privateKey, payload)` is modelled as an explicit
  function parameter `sign : String → String` (the private key is
  absorbed into the capability).
- The HTTP POST performed by `axios.post` is modelled by an explicit
  `HttpOutcome` parameter (success body, non-2xx error body, or transport
  failure), and each submitter returns the number of POSTs it issued
  together with the result it hands its caller.
-/

namespace SessionsScripts

/-- Model of a JSON value as produced by the scripts. Numbers are `Nat`
because every number the scripts put into JSON is a non-negative integer. -/
inductive Json where
  | str : String → Json
  | num : Nat → Json
  | bool : Bool → Json
  | null : Json
  | arr : List Json → Json
  | obj : List (String × Json) → Json
deriving Repr

/-- Decimal rendering of a natural number, as a JS template literal or
`JSON.stringify` renders a non-negative integral Number. -/
def digitChar (d : Nat) : Char := Char.ofNat (48 + d)

def natToDecimalCore : Nat → Nat → List Char
  | 0, _ => []
  | fuel + 1, n =>
    if n < 10 then [digitChar n]
    else natToDecimalCore fuel (n / 10) ++ [digitChar (n % 10)]

def natToDecimal (n : Nat) : String := ⟨natToDecimalCore (n + 1) n⟩

/-- Value of a digit string read back, used to prove `natToDecimal` injective. -/
def decimalVal (cs : List Char) : Nat :=
  cs.foldl (fun acc c => acc * 10 + (c.toNat - 48)) 0

/-- UTF-8 encoding of a Unicode code point, byte values as `Nat`. -/
def utf8EncodeNat (n : Nat) : List Nat :=
  if n < 128 then [n]
  else if n < 2048 then [192 + n / 64, 128 + n % 64]
  else if n < 65536 then [224 + n / 4096, 128 + n / 64 % 64, 128 + n % 64]
  else [240 + n / 262144, 128 + n / 4096 % 64, 128 + n / 64 % 64, 128 + n % 64]

/-- UTF-8 bytes of a string: model of `Buffer.from(s, 'utf8')` and of
`ethers.utils.toUtf8Bytes`. -/
def utf8Bytes (s : String) : List Nat :=
  s.data.flatMap (fun c => utf8EncodeNat c.toNat)

/-- Decoder for the first UTF-8-encoded code point, used to prove
`utf8Bytes` injective. -/
def utf8DecodeFirst : List Nat → Option (Nat × List Nat)
  | [] => none
  | b :: rest =>
    if b < 128 then some (b, rest)
    else if b < 224 then
      match rest with
      | b1 :: r => some ((b - 192) * 64 + (b1 - 128), r)
      | [] => none
    else if b < 240 then
      match rest with
      | b1 :: b2 :: r => some ((b - 224) * 4096 + (b1 - 128) * 64 + (b2 - 128), r)
      | _ => none
    else
      match rest with
      | b1 :: b2 :: b3 :: r =>
          some ((b - 240) * 262144 + (b1 - 128) * 4096 + (b2 - 128) * 64 + (b3 - 128), r)
      | _ => none

/-- Base64 alphabet lookup. -/
def b64Char (n : Nat) : Char :=
  "ABCDEFGHIJKLMNOPQRSTUVWXYZabcdefghijklmnopqrstuvwxyz0123456789+/".toList.getD n 'A'

/-- Standard base64 encoding of a byte list: model of
`Buffer.from(s).toString('base64')` composed with `utf8Bytes`. -/
def base64Encode : List Nat → String
  | [] => ""
  | [a] => ⟨[b64Char (a / 4), b64Char (a % 4 * 16)]⟩ ++ "=="
  | [a, b] => ⟨[b64Char (a / 4), b64Char (a % 4 * 16 + b / 16), b64Char (b % 16 * 4)]⟩ ++ "="
  | a :: b :: c :: rest =>
      (⟨[b64Char (a / 4), b64Char (a % 4 * 16 + b / 16),
         b64Char (b % 16 * 4 + c / 64), b64Char (c % 64)]⟩ : String) ++ base64Encode rest

/-- Minimal JSON string escaping as performed by `JSON.stringify` on the
strings that occur in these scripts (quote and backslash). -/
def jsonEscapeChar (c : Char) : String :=
  if c = '"' then "\\\"" else if c = '\\' then "\\\\" else String.singleton c

def jsonEscape (s : String) : String :=
  String.join (s.data.map jsonEscapeChar)

mutual

/-- Model of `JSON.stringify` (compact form, no extra whitespace), with
object keys in insertion order. -/
def Json.stringify : Json → String
  | .str s => "\"" ++ jsonEscape s ++ "\""
  | .num n => natToDecimal n
  | .bool b => if b then "true" else "false"
  | .null => "null"
  | .arr xs => "[" ++ Json.stringifyList xs ++ "]"
  | .obj fs => "\x7b" ++ Json.stringifyFields fs ++ "\x7d"

def Json.stringifyList : List Json → String
  | [] => ""
  | [x] => Json.stringify x
  | x :: y :: rest => Json.stringify x ++ "," ++ Json.stringifyList (y :: rest)

def Json.stringifyFields : List (String × Json) → String
  | [] => ""
  | [(k, v)] => "\"" ++ jsonEscape k ++ "\":" ++ Json.stringify v
  | (k, v) :: y :: rest =>
      "\"" ++ jsonEscape k ++ "\":" ++ Json.stringify v ++ "," ++ Json.stringifyFields (y :: rest)

end


/-! ### Data model

One structure per command variant, with the exact field sets and JS object
key order of the scripts. `NotarizeSession.metadata.startTime` carries the
value of `new Date().toISOString()` observed at build time. -/

/-- Validator proof `{id, signature}`. -/
structure Proof where
  id : String
  signature : String
deriving DecidableEq, Repr

structure CreateSession where
  accessProvider : String
  accessId : String
  accessObj : String
  endSnapshotOrdinal : Nat
  hash : String
deriving DecidableEq, Repr

structure CreateSolSession where
  accessProvider : String
  solanaAddress : String
  accessObj : String
  endSnapshotOrdinal : Nat
  solanaSignature : String
deriving DecidableEq, Repr

structure NotarizeMetadata where
  startTime : String
deriving DecidableEq, Repr

structure NotarizeSession where
  accessProvider : String
  accessId : String
  accessObj : String
  endSnapshotOrdinal : Nat
  metadata : NotarizeMetadata
deriving DecidableEq, Repr

structure ExtendSession where
  id : String
  accessProvider : String
  endSnapshotOrdinal : Nat
deriving DecidableEq, Repr

structure CloseSession where
  id : String
  accessProvider : String
deriving DecidableEq, Repr

/-- Tagged union of the command variants the scripts submit; the active
variant's tag name is the single key of the JS wrapper object. -/
inductive Command where
  | createSession : CreateSession → Command
  | createSolSession : CreateSolSession → Command
  | notarizeSession : NotarizeSession → Command
  | extendSession : ExtendSession → Command
  | closeSession : CloseSession → Command
deriving DecidableEq, Repr

/-- The constant `metadata.data` object embedded by
`buildNotarizeSessionMessage`. -/
def notarizeDataJson : Json :=
  Json.obj [("userId", Json.obj [("StringValue", Json.obj [("value", Json.str "user123")])]),
            ("loginCount", Json.obj [("NumberValue", Json.obj [("value", Json.num 42)])]),
            ("isActive", Json.obj [("BooleanValue", Json.obj [("value", Json.bool true)])])]

/-- JSON object layout of each command variant, keys in the insertion
order of the corresponding JS object literal. -/
def encodeCommand : Command → Json
  | .createSession m => Json.obj [("CreateSession", Json.obj [
      ("accessProvider", Json.str m.accessProvider),
      ("accessId", Json.str m.accessId),
      ("accessObj", Json.str m.accessObj),
      ("endSnapshotOrdinal", Json.num m.endSnapshotOrdinal),
      ("hash", Json.str m.hash)])]
  | .createSolSession m => Json.obj [("CreateSolSession", Json.obj [
      ("accessProvider", Json.str m.accessProvider),
      ("solanaAddress", Json.str m.solanaAddress),
      ("accessObj", Json.str m.accessObj),
      ("endSnapshotOrdinal", Json.num m.endSnapshotOrdinal),
      ("solanaSignature", Json.str m.solanaSignature)])]
  | .notarizeSession m => Json.obj [("NotarizeSession", Json.obj [
      ("accessProvider", Json.str m.accessProvider),
      ("accessId", Json.str m.accessId),
      ("accessObj", Json.str m.accessObj),
      ("endSnapshotOrdinal", Json.num m.endSnapshotOrdinal),
      ("metadata", Json.obj [
        ("startTime", Json.str m.metadata.startTime),
        ("data", notarizeDataJson)])])]
  | .extendSession m => Json.obj [("ExtendSession", Json.obj [
      ("id", Json.str m.id),
      ("accessProvider", Json.str m.accessProvider),
      ("endSnapshotOrdinal", Json.num m.endSnapshotOrdinal)])]
  | .closeSession m => Json.obj [("CloseSession", Json.obj [
      ("id", Json.str m.id),
      ("accessProvider", Json.str m.accessProvider)])]

def encodeProof (p : Proof) : Json :=
  Json.obj [("id", Json.str p.id), ("signature", Json.str p.signature)]

/-- JSON decoder for the command union: recognizes the wire layout
produced by `encodeCommand` and recovers the variant tag and fields. -/
def decodeCommand : Json → Option Command
  | Json.obj [("CreateSession", Json.obj [
      ("accessProvider", Json.str ap),
      ("accessId", Json.str ai),
      ("accessObj", Json.str ao),
      ("endSnapshotOrdinal", Json.num n),
      ("hash", Json.str h)])] =>
      some (Command.createSession ⟨ap, ai, ao, n, h⟩)
  | Json.obj [("CreateSolSession", Json.obj [
      ("accessProvider", Json.str ap),
      ("solanaAddress", Json.str sa),
      ("accessObj", Json.str ao),
      ("endSnapshotOrdinal", Json.num n),
      ("solanaSignature", Json.str s)])] =>
      some (Command.createSolSession ⟨ap, sa, ao, n, s⟩)
  | Json.obj [("NotarizeSession", Json.obj [
      ("accessProvider", Json.str ap),
      ("accessId", Json.str ai),
      ("accessObj", Json.str ao),
      ("endSnapshotOrdinal", Json.num n),
      ("metadata", Json.obj [
        ("startTime", Json.str st),
        ("data", _)])])] =>
      some (Command.notarizeSession ⟨ap, ai, ao, n, ⟨st⟩⟩)
  | Json.obj [("ExtendSession", Json.obj [
      ("id", Json.str i),
      ("accessProvider", Json.str ap),
      ("endSnapshotOrdinal", Json.num n)])] =>
      some (Command.extendSession ⟨i, ap, n⟩)
  | Json.obj [("CloseSession", Json.obj [
      ("id", Json.str i),
      ("accessProvider", Json.str ap)])] =>
      some (Command.closeSession ⟨i, ap⟩)
  | _ => none

def decodeProof : Json → Option Proof
  | Json.obj [("id", Json.str i), ("signature", Json.str s)] => some ⟨i, s⟩
  | _ => none

/-- The body each submitter POSTs: `{value: {...message}, proofs: [proof]}`. -/
def transactionBody (message : Command) (proof : Proof) : Json :=
  Json.obj [("value", encodeCommand message), ("proofs", Json.arr [encodeProof proof])]

/-- Decoder for the submitted envelope. -/
def decodeEnvelope : Json → Option (Command × Proof)
  | Json.obj [("value", v), ("proofs", Json.arr [pj])] =>
      match decodeCommand v, decodeProof pj with
      | some c, some p => some (c, p)
      | _, _ => none
  | _ => none

/-- The `proofs` entry of an envelope, as a JSON list. -/
def envelopeProofs : Json → Option (List Json)
  | Json.obj [("value", _), ("proofs", Json.arr ps)] => some ps
  | _ => none

/-! ### Transport model

`axios.post(url, body)` either resolves with a 2xx response (parsed JSON
body), rejects with a non-2xx response (`e.response.data` is the parsed
error body), or rejects with no response at all (`e.message` is the
transport error). The outcome is an explicit parameter of each submitter. -/

inductive HttpOutcome where
  | success : Json → HttpOutcome
  | errorResponse : Json → HttpOutcome
  | transportError : String → HttpOutcome
deriving Repr

inductive SubmissionError where
  | rejected : Json → SubmissionError
  | unreachable : String → SubmissionError
deriving Repr

/-- Result of one call of a submitter that propagates failures: the list
of bodies it POSTed (in order) and what it hands its caller. -/
structure SubmitOutcome where
  posted : List Json
  result : Except SubmissionError Json
deriving Repr

/-- Result of one call of the submitter in `send_data_transaction.js`,
which logs failures and returns `undefined` either way. -/
structure EthSubmitOutcome where
  posted : List Json
  logged : String
  result : Except SubmissionError Unit
deriving Repr

/-- JS property access `obj.field`: `some` value when the key is present,
`none` (i.e. `undefined`) otherwise or when the value is not an object. -/
def jsGet (field : String) : Json → Option Json
  | Json.obj fs => fs.lookup field
  | _ => none

/-! ### Script 1 of `src/send_data_transaction.js` (plain DAG variant)

`generateProof` at lines 35-47. `dag4.keyStore.dataSign(walletPrivateKey, p)`
is the capability `sign p`; `account.publicKey` is the `publicKey` argument. -/

namespace DagScript

def buildMessage (creator : String) (sessionId : String) (endSnapshotOrdinal : Nat) : Json :=
  Json.obj [("CreateSession", Json.obj [
    ("creator", Json.str creator),
    ("id", Json.str sessionId),
    ("endSnapshotOrdinal", Json.num endSnapshotOrdinal)])]

/-- Model of `generateProof`: base64-encode `JSON.stringify(message)`, sign it, and
normalize `account.publicKey` into the proof id via
`(publicKey.length === 128 ? '04' + publicKey : publicKey).substring(2)`. -/
def generateProof (message : Json) (sign : String → String) (publicKey : String) : Proof :=
  let encodedMessage := base64Encode (utf8Bytes (Json.stringify message))
  let signature := sign encodedMessage
  let uncompressedPublicKey := if publicKey.length = 128 then "04" ++ publicKey else publicKey
  { id := uncompressedPublicKey.drop 2, signature := signature }

end DagScript

/-! ### Script 2 of `src/send_data_transaction.js` (Ethereum variant) -/

namespace EthScript

def buildCreateSessionMessage (accessProvider accessId accessObj : String)
    (endSnapshotOrdinal : Nat) : CreateSession :=
  { accessProvider := accessProvider
    accessId := accessId
    accessObj := accessObj
    endSnapshotOrdinal := endSnapshotOrdinal
    hash := "" }

/-- Model of `serializeForEthereumSignature`: UTF-8 bytes of the template literal
concatenating accessId, accessProvider, accessObj, endSnapshotOrdinal. -/
def serializeForEthereumSignature (message : CreateSession) : List Nat :=
  utf8Bytes (message.accessId ++ message.accessProvider ++ message.accessObj
    ++ natToDecimal message.endSnapshotOrdinal)

/-- Model of `assignEthereumSignature`: `message.CreateSession.hash = signature`. -/
def assignEthereumSignature (message : CreateSession) (signature : String) : CreateSession :=
  { message with hash := signature }

/-- Model of `generateDag4Proof` of the Ethereum script (lines 171-185): textually
identical to `DagScript.generateProof`. -/
def generateDag4Proof (message : Json) (sign : String → String) (publicKey : String) : Proof :=
  let serializedMessage := base64Encode (utf8Bytes (Json.stringify message))
  let signature := sign serializedMessage
  let uncompressedPublicKey := if publicKey.length = 128 then "04" ++ publicKey else publicKey
  { id := uncompressedPublicKey.drop 2, signature := signature }

/-- Model of `sendTransaction` (lines 190-210): POSTs the envelope once; on success
logs `response.data`, on a non-2xx response logs `e.response.data`, on a
transport failure logs `e.message`. The `catch` block never rethrows, so
the function completes normally (returns `undefined`) on every path. -/
def sendTransaction (message : Command) (proof : Proof) (outcome : HttpOutcome) :
    EthSubmitOutcome :=
  let body := transactionBody message proof
  match outcome with
  | .success data => { posted := [body], logged := Json.stringify data, result := .ok () }
  | .errorResponse data => { posted := [body], logged := Json.stringify data, result := .ok () }
  | .transportError msg => { posted := [body], logged := msg, result := .ok () }

end EthScript

/-! ### Script 1 of `src/send_data_transaction_solana.js` (Solana variant) -/

namespace SolScript

def buildCreateSolSessionMessage (accessProvider solanaAddress accessObj : String)
    (endSnapshotOrdinal : Nat) : CreateSolSession :=
  { accessProvider := accessProvider
    solanaAddress := solanaAddress
    accessObj := accessObj
    endSnapshotOrdinal := endSnapshotOrdinal
    solanaSignature := "" }

/-- Model of `serializeForSolanaSignature`: UTF-8 bytes of the template literal
concatenating solanaAddress, accessProvider, accessObj, endSnapshotOrdinal. -/
def serializeForSolanaSignature (message : CreateSolSession) : List Nat :=
  utf8Bytes (message.solanaAddress ++ message.accessProvider ++ message.accessObj
    ++ natToDecimal message.endSnapshotOrdinal)

/-- Model of `assignSolanaSignature`: `message.CreateSolSession.solanaSignature = signature`. -/
def assignSolanaSignature (message : CreateSolSession) (signature : String) : CreateSolSession :=
  { message with solanaSignature := signature }

/-- Model of `generateDag4Proof` of the Solana script (lines 64-75). -/
def generateDag4Proof (message : Json) (sign : String → String) (publicKey : String) : Proof :=
  let serializedMessage := base64Encode (utf8Bytes (Json.stringify message))
  let signature := sign serializedMessage
  let uncompressedPublicKey := if publicKey.length = 128 then "04" ++ publicKey else publicKey
  { id := uncompressedPublicKey.drop 2, signature := signature }

end SolScript

/-! ### Script 2 of `src/send_data_transaction_solana.js` (session lifecycle) -/

namespace SessionScript

/-- Model of `buildNotarizeSessionMessage`: the `now` parameter makes the ambient
clock read `new Date().toISOString()` explicit; the remaining parameters
are the JS ones in order. -/
def buildNotarizeSessionMessage (now : String) (accessProvider accessId accessObj : String)
    (endSnapshotOrdinal : Nat) : NotarizeSession :=
  { accessProvider := accessProvider
    accessId := accessId
    accessObj := accessObj
    endSnapshotOrdinal := endSnapshotOrdinal
    metadata := { startTime := now } }

def buildExtendSessionMessage (sessionId accessProvider : String)
    (newEndSnapshotOrdinal : Nat) : ExtendSession :=
  { id := sessionId
    accessProvider := accessProvider
    endSnapshotOrdinal := newEndSnapshotOrdinal }

def buildCloseSessionMessage (sessionId accessProvider : String) : CloseSession :=
  { id := sessionId
    accessProvider := accessProvider }

/-- Model of `generateDag4Proof` of the session-lifecycle script (lines 213-225). -/
def generateDag4Proof (message : Json) (sign : String → String) (publicKey : String) : Proof :=
  let serializedMessage := base64Encode (utf8Bytes (Json.stringify message))
  let signature := sign serializedMessage
  let uncompressedPublicKey := if publicKey.length = 128 then "04" ++ publicKey else publicKey
  { id := uncompressedPublicKey.drop 2, signature := signature }

/-- Model of `sendTransaction` (lines 227-249): POSTs the envelope once; returns
`response.data` on 2xx; on failure logs and rethrows (`throw e`), so the
caller observes the server's error body when a response is present and the
transport error message otherwise. -/
def sendTransaction (message : Command) (proof : Proof) (outcome : HttpOutcome) :
    SubmitOutcome :=
  let body := transactionBody message proof
  match outcome with
  | .success data => { posted := [body], result := .ok data }
  | .errorResponse data => { posted := [body], result := .error (.rejected data) }
  | .transportError msg => { posted := [body], result := .error (.unreachable msg) }

/-- What one pipeline step hands `main`, as a function of its POST's
outcome (the step's message and proof do not influence it). -/
def submitResult (outcome : HttpOutcome) : Except SubmissionError Json :=
  match outcome with
  | .success data => .ok data
  | .errorResponse data => .error (.rejected data)
  | .transportError msg => .error (.unreachable msg)

end SessionScript

/-- The three pipeline steps `main` can run, in program order. -/
inductive Step where
  | create : Step
  | extend : Step
  | close : Step
deriving DecidableEq, Repr

/-- Observable outcome of one run of the session-lifecycle `main`:
which steps reached their POST (in order), the session id `main` read out
of the create response (`createResult.hash`, `none` when the property is
absent, i.e. JS `undefined`), and the process exit code. -/
structure OrchestratorRun where
  submitted : List Step
  storedSessionId : Option Json
  exitCode : Nat
deriving Repr

namespace SessionScript

/-- Model of `main` of the session-lifecycle script (lines 296-344), as a function
of the POST outcomes of its three steps. Control flow: the three steps run
in sequence inside one `try` block; a step failure is a thrown exception,
caught by the enclosing `catch`, which calls `process.exit(1)` — later
steps do not run. `sessionId` is `createResult.hash` and is threaded into
the extend and close steps unconditionally (there is no check that it is
present). The inter-step `setTimeout` delays do not affect this model. -/
def mainRun (createOutcome extendOutcome closeOutcome : HttpOutcome) : OrchestratorRun :=
  match submitResult createOutcome with
  | .error _ => { submitted := [.create], storedSessionId := none, exitCode := 1 }
  | .ok createResult =>
    let sessionId := jsGet "hash" createResult
    match submitResult extendOutcome with
    | .error _ => { submitted := [.create, .extend], storedSessionId := sessionId, exitCode := 1 }
    | .ok _ =>
      match submitResult closeOutcome with
      | .error _ =>
          { submitted := [.create, .extend, .close], storedSessionId := sessionId, exitCode := 1 }
      | .ok _ =>
          { submitted := [.create, .extend, .close], storedSessionId := sessionId, exitCode := 0 }

end SessionScript

/-! ### Injectivity of the decimal and UTF-8 encodings

These lemmas are the backbone of the serializer-discrimination claims:
they let a difference in a single concatenated field be propagated to a
difference in the serialized byte sequence. -/

theorem digitChar_toNat (d : Nat) (hd : d < 10) : (digitChar d).toNat = 48 + d := by
  interval_cases d <;> decide

theorem decimalVal_append_digit (cs : List Char) (c : Char) :
    decimalVal (cs ++ [c]) = decimalVal cs * 10 + (c.toNat - 48) := by
  simp [decimalVal, List.foldl_append]

theorem decimalVal_natToDecimalCore :
    ∀ fuel n : Nat, n < 10 ^ fuel → decimalVal (natToDecimalCore fuel n) = n := by
  intro fuel
  induction fuel with
  | zero =>
    intro n h
    simp only [pow_zero, Nat.lt_one_iff] at h
    simp [natToDecimalCore, decimalVal, h]
  | succ fuel ih =>
    intro n h
    rw [natToDecimalCore]
    split
    · next h10 =>
      simp [decimalVal, digitChar_toNat n h10]
    · next h10 =>
      have hdiv : n / 10 < 10 ^ fuel := by
        apply Nat.div_lt_of_lt_mul
        rw [pow_succ] at h
        omega
      rw [decimalVal_append_digit, ih (n / 10) hdiv,
        digitChar_toNat (n % 10) (Nat.mod_lt _ (by omega))]
      omega

theorem decimalVal_natToDecimal (n : Nat) : decimalVal (natToDecimal n).data = n := by
  apply decimalVal_natToDecimalCore
  calc n < 10 ^ n := Nat.lt_pow_self (by omega) n
    _ ≤ 10 ^ (n + 1) := Nat.pow_le_pow_right (by omega) (Nat.le_succ n)

theorem natToDecimal_inj (m n : Nat) (h : natToDecimal m = natToDecimal n) : m = n := by
  calc m = decimalVal (natToDecimal m).data := (decimalVal_natToDecimal m).symm
    _ = decimalVal (natToDecimal n).data := by rw [h]
    _ = n := decimalVal_natToDecimal n

theorem utf8EncodeNat_ne_nil (n : Nat) : utf8EncodeNat n ≠ [] := by
  unfold utf8EncodeNat
  split_ifs <;> simp

theorem utf8DecodeFirst_encode (n : Nat) (rest : List Nat) :
    utf8DecodeFirst (utf8EncodeNat n ++ rest) = some (n, rest) := by
  unfold utf8EncodeNat
  split_ifs with h1 h2 h3
  · simp [utf8DecodeFirst, h1]
  · have ha : ¬ (192 + n / 64 < 128) := by omega
    have hb : 192 + n / 64 < 224 := by omega
    simp [utf8DecodeFirst, ha, hb]
    omega
  · have ha : ¬ (224 + n / 4096 < 128) := by omega
    have hb : ¬ (224 + n / 4096 < 224) := by omega
    have hc : 224 + n / 4096 < 240 := by omega
    simp [utf8DecodeFirst, ha, hb, hc]
    omega
  · have ha : ¬ (240 + n / 262144 < 128) := by omega
    have hb : ¬ (240 + n / 262144 < 224) := by omega
    have hc : ¬ (240 + n / 262144 < 240) := by omega
    simp [utf8DecodeFirst, ha, hb, hc]
    omega

theorem charFlatMap_utf8_inj :
    ∀ l1 l2 : List Char,
      l1.flatMap (fun c => utf8EncodeNat c.toNat) = l2.flatMap (fun c => utf8EncodeNat c.toNat) →
      l1 = l2 := by
  intro l1
  induction l1 with
  | nil =>
    intro l2 h
    cases l2 with
    | nil => rfl
    | cons c t =>
      exfalso
      rw [List.flatMap_nil, List.flatMap_cons] at h
      exact utf8EncodeNat_ne_nil c.toNat (List.append_eq_nil.mp h.symm).1
  | cons c1 t1 ih =>
    intro l2 h
    cases l2 with
    | nil =>
      exfalso
      rw [List.flatMap_nil, List.flatMap_cons] at h
      exact utf8EncodeNat_ne_nil c1.toNat (List.append_eq_nil.mp h).1
    | cons c2 t2 =>
      rw [List.flatMap_cons, List.flatMap_cons] at h
      have hdec := congrArg utf8DecodeFirst h
      rw [utf8DecodeFirst_encode, utf8DecodeFirst_encode] at hdec
      have hfst : c1.toNat = c2.toNat := by
        have := congrArg (fun o => o.map Prod.fst) hdec
        simpa using this
      have hsnd :
          t1.flatMap (fun c => utf8EncodeNat c.toNat)
            = t2.flatMap (fun c => utf8EncodeNat c.toNat) := by
        have := congrArg (fun o => o.map Prod.snd) hdec
        simpa using this
      have hc : c1 = c2 := by
        have := congrArg Char.ofNat hfst
        rwa [Char.ofNat_toNat, Char.ofNat_toNat] at this
      rw [hc, ih t2 hsnd]

theorem utf8Bytes_inj (s1 s2 : String) (h : utf8Bytes s1 = utf8Bytes s2) : s1 = s2 := by
  cases s1 with
  | mk d1 =>
    cases s2 with
    | mk d2 =>
      have : d1 = d2 := charFlatMap_utf8_inj d1 d2 h
      rw [this]

/-- Dropping two characters undoes prepending the two-character `"04"`. -/
theorem drop_two_after_04 (s : String) : ("04" ++ s).drop 2 = s := by
  cases s with
  | mk l =>
    rw [String.drop_eq]
    simp

theorem string_data_inj (s t : String) (h : s.data = t.data) : s = t := by
  cases s
  cases t
  exact congrArg String.mk h

/-- Cancellation for the serializers' four-part concatenation: if the two
concatenations are equal and three corresponding parts are equal, so is
the fourth. -/
theorem append4_cancel (a1 a2 b1 b2 c1 c2 : String) (n1 n2 : Nat)
    (h : a1 ++ b1 ++ c1 ++ natToDecimal n1 = a2 ++ b2 ++ c2 ++ natToDecimal n2) :
    (b1 = b2 → c1 = c2 → n1 = n2 → a1 = a2)
    ∧ (a1 = a2 → c1 = c2 → n1 = n2 → b1 = b2)
    ∧ (a1 = a2 → b1 = b2 → n1 = n2 → c1 = c2)
    ∧ (a1 = a2 → b1 = b2 → c1 = c2 → n1 = n2) := by
  have hd : a1.data ++ (b1.data ++ (c1.data ++ (natToDecimal n1).data))
      = a2.data ++ (b2.data ++ (c2.data ++ (natToDecimal n2).data)) := by
    have := congrArg String.data h
    simpa using this
  refine ⟨?_, ?_, ?_, ?_⟩
  · intro hb hc hn
    subst hb; subst hc; subst hn
    exact string_data_inj _ _ (List.append_inj' hd rfl).1
  · intro ha hc hn
    subst ha; subst hc; subst hn
    have h2 := List.append_cancel_left hd
    exact string_data_inj _ _ (List.append_inj' h2 rfl).1
  · intro ha hb hn
    subst ha; subst hb; subst hn
    have h2 := List.append_cancel_left (List.append_cancel_left hd)
    exact string_data_inj _ _ (List.append_inj' h2 rfl).1
  · intro ha hb hc
    subst ha; subst hb; subst hc
    have h2 := List.append_cancel_left (List.append_cancel_left (List.append_cancel_left hd))
    exact natToDecimal_inj _ _ (string_data_inj _ _ h2)

/-! ### Claim theorems -/

/-- C10: the four validator proof generators duplicated across the scripts
(`generateProof` and the three copies of `generateDag4Proof`) compute the
same function: for equal message, signing capability, and account public
key, all four produce equal Proofs. -/
theorem proof_generators_agree (message : Json) (sign : String → String) (publicKey : String) :
    DagScript.generateProof message sign publicKey
        = EthScript.generateDag4Proof message sign publicKey
    ∧ EthScript.generateDag4Proof message sign publicKey
        = SolScript.generateDag4Proof message sign publicKey
    ∧ SolScript.generateDag4Proof message sign publicKey
        = SessionScript.generateDag4Proof message sign publicKey :=
  ⟨rfl, rfl, rfl⟩

/-- C1 counterexample: for a 64-character public key the claim predicts
`id = ("04" + input).substring(2)` (which equals the input unchanged),
but the generator strips the first byte of the raw input instead. -/
theorem generateProof_id_counterexample :
    ("aaaaaaaaaaaaaaaaaaaaaaaaaaaaaaaaaaaaaaaaaaaaaaaaaaaaaaaaaaaaaaaa" : String).length = 64
    ∧ (DagScript.generateProof (Json.obj []) (fun _ => "")
        "aaaaaaaaaaaaaaaaaaaaaaaaaaaaaaaaaaaaaaaaaaaaaaaaaaaaaaaaaaaaaaaa").id
      ≠ ("04" ++ "aaaaaaaaaaaaaaaaaaaaaaaaaaaaaaaaaaaaaaaaaaaaaaaaaaaaaaaaaaaaaaaa").drop 2 := by
  refine ⟨rfl, ?_⟩
  decide

/-- C1 amended: a 128-character key gets the `04` prefix prepended and the
first byte stripped, so it passes through unchanged; a key of any other
length (e.g. 64 characters) gets no prefix and loses its first byte:
`id = publicKey.substring(2)`. Stated for both cited generator copies. -/
theorem generateProof_id_normalization (message : Json) (sign : String → String)
    (publicKey : String) :
    (DagScript.generateProof message sign publicKey).id
        = (if publicKey.length = 128 then publicKey else publicKey.drop 2)
    ∧ (SessionScript.generateDag4Proof message sign publicKey).id
        = (if publicKey.length = 128 then publicKey else publicKey.drop 2) := by
  constructor <;>
  · show (if publicKey.length = 128 then "04" ++ publicKey else publicKey).drop 2 = _
    split_ifs with h
    · exact drop_two_after_04 publicKey
    · rfl

/-- C6: the signature embedders set exactly the signature field: every
other field of the returned Command is unchanged, and a second call with
a different signature overwrites the first (no accumulation). -/
theorem assign_signature_frame :
    (∀ (m : CreateSession) (s : String),
        (EthScript.assignEthereumSignature m s).hash = s
        ∧ (EthScript.assignEthereumSignature m s).accessProvider = m.accessProvider
        ∧ (EthScript.assignEthereumSignature m s).accessId = m.accessId
        ∧ (EthScript.assignEthereumSignature m s).accessObj = m.accessObj
        ∧ (EthScript.assignEthereumSignature m s).endSnapshotOrdinal = m.endSnapshotOrdinal)
    ∧ (∀ (m : CreateSession) (s1 s2 : String),
        EthScript.assignEthereumSignature (EthScript.assignEthereumSignature m s1) s2
          = EthScript.assignEthereumSignature m s2)
    ∧ (∀ (m : CreateSolSession) (s : String),
        (SolScript.assignSolanaSignature m s).solanaSignature = s
        ∧ (SolScript.assignSolanaSignature m s).accessProvider = m.accessProvider
        ∧ (SolScript.assignSolanaSignature m s).solanaAddress = m.solanaAddress
        ∧ (SolScript.assignSolanaSignature m s).accessObj = m.accessObj
        ∧ (SolScript.assignSolanaSignature m s).endSnapshotOrdinal = m.endSnapshotOrdinal)
    ∧ (∀ (m : CreateSolSession) (s1 s2 : String),
        SolScript.assignSolanaSignature (SolScript.assignSolanaSignature m s1) s2
          = SolScript.assignSolanaSignature m s2) :=
  ⟨fun _ _ => ⟨rfl, rfl, rfl, rfl, rfl⟩, fun _ _ _ => rfl,
   fun _ _ => ⟨rfl, rfl, rfl, rfl, rfl⟩, fun _ _ _ => rfl⟩

/-- C8: each create-variant serializer returns exactly the UTF-8 bytes of
the separator-free concatenation external-address, accessProvider,
accessObj, decimal endSnapshotOrdinal — and ignores the signature
placeholder field. -/
theorem serialize_fixed_field_order :
    (∀ m : CreateSession, EthScript.serializeForEthereumSignature m
        = utf8Bytes (m.accessId ++ m.accessProvider ++ m.accessObj
            ++ natToDecimal m.endSnapshotOrdinal))
    ∧ (∀ m : CreateSolSession, SolScript.serializeForSolanaSignature m
        = utf8Bytes (m.solanaAddress ++ m.accessProvider ++ m.accessObj
            ++ natToDecimal m.endSnapshotOrdinal))
    ∧ (∀ (m : CreateSession) (s : String),
        EthScript.serializeForEthereumSignature { m with hash := s }
          = EthScript.serializeForEthereumSignature m)
    ∧ (∀ (m : CreateSolSession) (s : String),
        SolScript.serializeForSolanaSignature { m with solanaSignature := s }
          = SolScript.serializeForSolanaSignature m) :=
  ⟨fun _ => rfl, fun _ => rfl, fun _ _ => rfl, fun _ _ => rfl⟩

/-- C2 counterexample: at a concrete non-2xx outcome the submitter of
`send_data_transaction.js` completes normally (its `catch` only logs),
instead of reporting a SubmissionError to its caller. -/
theorem sendTransaction_swallows_counterexample :
    (EthScript.sendTransaction
        (Command.createSession (EthScript.buildCreateSessionMessage "DAG_ADDR" "0xETH" "Owner1" 750))
        ⟨"pkid", "sig"⟩
        (HttpOutcome.errorResponse (Json.obj [("error", Json.str "bad request")]))).result
      = Except.ok () := rfl

/-- C2 amended: both submitters POST the envelope exactly once (no retry);
the session-lifecycle submitter reports a non-2xx response to its caller as
`rejected` with the server's error body and a transport failure as
`unreachable` with the transport message, while the submitter of
`send_data_transaction.js` logs the failure and completes normally. -/
theorem sendTransaction_error_reporting (m : Command) (p : Proof) :
    (∀ body : Json, (SessionScript.sendTransaction m p (.errorResponse body)).result
        = .error (.rejected body))
    ∧ (∀ msg : String, (SessionScript.sendTransaction m p (.transportError msg)).result
        = .error (.unreachable msg))
    ∧ (∀ o : HttpOutcome, (SessionScript.sendTransaction m p o).posted = [transactionBody m p])
    ∧ (∀ o : HttpOutcome, (EthScript.sendTransaction m p o).posted = [transactionBody m p])
    ∧ (∀ o : HttpOutcome, (EthScript.sendTransaction m p o).result = .ok ()) :=
  ⟨fun _ => rfl, fun _ => rfl,
   fun o => by cases o <;> rfl,
   fun o => by cases o <;> rfl,
   fun o => by cases o <;> rfl⟩

/-- C3 counterexample: a 2xx create response whose body has no `hash`
property does not fail the run — the orchestrator proceeds through extend
and close and exits 0, with the stored session id `undefined`. -/
theorem mainRun_missing_hash_counterexample :
    (SessionScript.mainRun (HttpOutcome.success (Json.obj [("status", Json.str "ok")]))
        (HttpOutcome.success (Json.obj [])) (HttpOutcome.success (Json.obj []))).exitCode = 0
    ∧ (SessionScript.mainRun (HttpOutcome.success (Json.obj [("status", Json.str "ok")]))
        (HttpOutcome.success (Json.obj [])) (HttpOutcome.success (Json.obj []))).storedSessionId
        = none
    ∧ (SessionScript.mainRun (HttpOutcome.success (Json.obj [("status", Json.str "ok")]))
        (HttpOutcome.success (Json.obj [])) (HttpOutcome.success (Json.obj []))).submitted
        = [Step.create, Step.extend, Step.close] :=
  ⟨rfl, rfl, rfl⟩

/-- C3 amended: after a successful create the orchestrator stores
`createResult.hash` as the session id (mocked `hash:"abc123"` yields
`"abc123"`); when the response body has no `hash` the stored id is simply
`undefined` (`none`) and the run continues instead of failing. -/
theorem mainRun_stores_hash (body : Json) (e c : HttpOutcome) :
    (SessionScript.mainRun (.success body) e c).storedSessionId = jsGet "hash" body
    ∧ (SessionScript.mainRun (.success (Json.obj [("hash", Json.str "abc123")])) e c).storedSessionId
        = some (Json.str "abc123")
    ∧ (SessionScript.mainRun (.success (Json.obj [])) (.success (Json.obj []))
        (.success (Json.obj []))).submitted = [Step.create, Step.extend, Step.close] := by
  refine ⟨?_, ?_, rfl⟩
  · cases e <;> cases c <;> rfl
  · cases e <;> cases c <;> rfl

/-- C5 counterexample: `buildNotarizeSessionMessage` embeds the ambient
clock reading, so two invocations with identical business parameters can
return different Commands — it is not free of clock reads. -/
theorem buildNotarize_clock_counterexample :
    SessionScript.buildNotarizeSessionMessage "2025-01-01T00:00:00.000Z"
        "DAG_ADDR" "DAG_ADDR" "Owner11" 12000
      ≠ SessionScript.buildNotarizeSessionMessage "2025-01-01T00:00:01.000Z"
        "DAG_ADDR" "DAG_ADDR" "Owner11" 12000 := by
  decide

/-- C5 amended: the create-session builders are pure functions of their
parameters and initialize their signature placeholder to the empty string;
`buildNotarizeSessionMessage` is a pure function only of its parameters
*plus* the ambient clock reading, which it stores in `metadata.startTime`
(it has no signature field to initialize). -/
theorem builders_pure (accessProvider accessId accessObj solanaAddress now : String) (n : Nat) :
    (EthScript.buildCreateSessionMessage accessProvider accessId accessObj n).hash = ""
    ∧ (EthScript.buildCreateSessionMessage accessProvider accessId accessObj n)
        = { accessProvider := accessProvider, accessId := accessId, accessObj := accessObj,
            endSnapshotOrdinal := n, hash := "" }
    ∧ (SolScript.buildCreateSolSessionMessage accessProvider solanaAddress accessObj n).solanaSignature
        = ""
    ∧ (SolScript.buildCreateSolSessionMessage accessProvider solanaAddress accessObj n)
        = { accessProvider := accessProvider, solanaAddress := solanaAddress,
            accessObj := accessObj, endSnapshotOrdinal := n, solanaSignature := "" }
    ∧ (SessionScript.buildNotarizeSessionMessage now accessProvider accessId accessObj n).metadata.startTime
        = now :=
  ⟨rfl, rfl, rfl, rfl, rfl⟩

/-- C7: in the create → extend → close sequence a later step is never
submitted after an earlier failure: a failed create halts before extend;
a rejected extend (e.g. 4xx with `error:"session not found"`) is surfaced
as `rejected` with that body and halts before close, with no additional
(compensating) submission and exit code 1. -/
theorem mainRun_halts_on_failure (createBody extendErr : Json) (msg : String)
    (o1 o2 : HttpOutcome) :
    (SessionScript.mainRun (.errorResponse createBody) o1 o2).submitted = [Step.create]
    ∧ (SessionScript.mainRun (.transportError msg) o1 o2).submitted = [Step.create]
    ∧ (SessionScript.mainRun (.success createBody) (.errorResponse extendErr) o2).submitted
        = [Step.create, Step.extend]
    ∧ (SessionScript.mainRun (.success createBody) (.transportError msg) o2).submitted
        = [Step.create, Step.extend]
    ∧ SessionScript.submitResult (.errorResponse extendErr) = .error (.rejected extendErr)
    ∧ (SessionScript.mainRun (.success createBody) (.errorResponse extendErr) o2).exitCode = 1 :=
  ⟨rfl, rfl, rfl, rfl, rfl, rfl⟩

/-- C9: each submitter POSTs exactly the envelope
`{value: Command, proofs: [Proof]}` with a single proof, and JSON-decoding
that body reproduces the exact variant tag and all field values. -/
theorem envelope_roundtrip (m : Command) (p : Proof) :
    (∀ o : HttpOutcome, (SessionScript.sendTransaction m p o).posted = [transactionBody m p])
    ∧ (∀ o : HttpOutcome, (EthScript.sendTransaction m p o).posted = [transactionBody m p])
    ∧ envelopeProofs (transactionBody m p) = some [encodeProof p]
    ∧ (∃ ps : List Json, envelopeProofs (transactionBody m p) = some ps ∧ ps.length = 1)
    ∧ decodeEnvelope (transactionBody m p) = some (m, p) := by
  refine ⟨fun o => by cases o <;> rfl, fun o => by cases o <;> rfl, rfl,
    ⟨[encodeProof p], rfl, rfl⟩, ?_⟩
  cases m <;> rfl

/-- C4 counterexample: two create-session Commands that differ in a
signed-subset field (accessId, and also accessProvider) but serialize to
the same byte sequence — separator-free concatenation is not injective. -/
theorem serialize_collision_counterexample :
    ((⟨"", "ab", "Owner1", 750, ""⟩ : CreateSession).accessId
        ≠ (⟨"b", "a", "Owner1", 750, ""⟩ : CreateSession).accessId)
    ∧ EthScript.serializeForEthereumSignature ⟨"", "ab", "Owner1", 750, ""⟩
        = EthScript.serializeForEthereumSignature ⟨"b", "a", "Owner1", 750, ""⟩ :=
  ⟨by decide, rfl⟩

/-- C4 amended: the serializers are deterministic, and they discriminate
on any single signed-subset field: two same-variant Commands that differ
in exactly one of the signed fields (the other three being equal)
serialize to different byte sequences. (Discrimination fails when two or
more string fields change simultaneously, as the counterexample shows.) -/
theorem serializers_deterministic_discriminating :
    (∀ c : CreateSession,
        EthScript.serializeForEthereumSignature c = EthScript.serializeForEthereumSignature c)
    ∧ (∀ c : CreateSolSession,
        SolScript.serializeForSolanaSignature c = SolScript.serializeForSolanaSignature c)
    ∧ (∀ c1 c2 : CreateSession,
        c1.accessProvider = c2.accessProvider → c1.accessObj = c2.accessObj →
        c1.endSnapshotOrdinal = c2.endSnapshotOrdinal → c1.accessId ≠ c2.accessId →
        EthScript.serializeForEthereumSignature c1 ≠ EthScript.serializeForEthereumSignature c2)
    ∧ (∀ c1 c2 : CreateSession,
        c1.accessId = c2.accessId → c1.accessObj = c2.accessObj →
        c1.endSnapshotOrdinal = c2.endSnapshotOrdinal → c1.accessProvider ≠ c2.accessProvider →
        EthScript.serializeForEthereumSignature c1 ≠ EthScript.serializeForEthereumSignature c2)
    ∧ (∀ c1 c2 : CreateSession,
        c1.accessId = c2.accessId → c1.accessProvider = c2.accessProvider →
        c1.endSnapshotOrdinal = c2.endSnapshotOrdinal → c1.accessObj ≠ c2.accessObj →
        EthScript.serializeForEthereumSignature c1 ≠ EthScript.serializeForEthereumSignature c2)
    ∧ (∀ c1 c2 : CreateSession,
        c1.accessId = c2.accessId → c1.accessProvider = c2.accessProvider →
        c1.accessObj = c2.accessObj → c1.endSnapshotOrdinal ≠ c2.endSnapshotOrdinal →
        EthScript.serializeForEthereumSignature c1 ≠ EthScript.serializeForEthereumSignature c2)
    ∧ (∀ c1 c2 : CreateSolSession,
        c1.accessProvider = c2.accessProvider → c1.accessObj = c2.accessObj →
        c1.endSnapshotOrdinal = c2.endSnapshotOrdinal → c1.solanaAddress ≠ c2.solanaAddress →
        SolScript.serializeForSolanaSignature c1 ≠ SolScript.serializeForSolanaSignature c2)
    ∧ (∀ c1 c2 : CreateSolSession,
        c1.solanaAddress = c2.solanaAddress → c1.accessObj = c2.accessObj →
        c1.endSnapshotOrdinal = c2.endSnapshotOrdinal → c1.accessProvider ≠ c2.accessProvider →
        SolScript.serializeForSolanaSignature c1 ≠ SolScript.serializeForSolanaSignature c2)
    ∧ (∀ c1 c2 : CreateSolSession,
        c1.solanaAddress = c2.solanaAddress → c1.accessProvider = c2.accessProvider →
        c1.endSnapshotOrdinal = c2.endSnapshotOrdinal → c1.accessObj ≠ c2.accessObj →
        SolScript.serializeForSolanaSignature c1 ≠ SolScript.serializeForSolanaSignature c2)
    ∧ (∀ c1 c2 : CreateSolSession,
        c1.solanaAddress = c2.solanaAddress → c1.accessProvider = c2.accessProvider →
        c1.accessObj = c2.accessObj → c1.endSnapshotOrdinal ≠ c2.endSnapshotOrdinal →
        SolScript.serializeForSolanaSignature c1 ≠ SolScript.serializeForSolanaSignature c2) :=
  ⟨fun _ => rfl, fun _ => rfl,
   fun _ _ hp ho hn hne hser =>
     hne ((append4_cancel _ _ _ _ _ _ _ _ (utf8Bytes_inj _ _ hser)).1 hp ho hn),
   fun _ _ ha ho hn hne hser =>
     hne ((append4_cancel _ _ _ _ _ _ _ _ (utf8Bytes_inj _ _ hser)).2.1 ha ho hn),
   fun _ _ ha hp hn hne hser =>
     hne ((append4_cancel _ _ _ _ _ _ _ _ (utf8Bytes_inj _ _ hser)).2.2.1 ha hp hn),
   fun _ _ ha hp ho hne hser =>
     hne ((append4_cancel _ _ _ _ _ _ _ _ (utf8Bytes_inj _ _ hser)).2.2.2 ha hp ho),
   fun _ _ hp ho hn hne hser =>
     hne ((append4_cancel _ _ _ _ _ _ _ _ (utf8Bytes_inj _ _ hser)).1 hp ho hn),
   fun _ _ ha ho hn hne hser =>
     hne ((append4_cancel _ _ _ _ _ _ _ _ (utf8Bytes_inj _ _ hser)).2.1 ha ho hn),
   fun _ _ ha hp hn hne hser =>
     hne ((append4_cancel _ _ _ _ _ _ _ _ (utf8Bytes_inj _ _ hser)).2.2.1 ha hp hn),
   fun _ _ ha hp ho hne hser =>
     hne ((append4_cancel _ _ _ _ _ _ _ _ (utf8Bytes_inj _ _ hser)).2.2.2 ha hp ho)⟩

/-- Witness for the amended C4 theorem: each single-field discrimination
conjunct applied at concrete Commands differing in exactly that field. -/
theorem serializers_discrimination_witness :
    EthScript.serializeForEthereumSignature ⟨"p", "a", "o", 7, ""⟩
        ≠ EthScript.serializeForEthereumSignature ⟨"p", "b", "o", 7, ""⟩
    ∧ EthScript.serializeForEthereumSignature ⟨"p", "a", "o", 7, ""⟩
        ≠ EthScript.serializeForEthereumSignature ⟨"q", "a", "o", 7, ""⟩
    ∧ EthScript.serializeForEthereumSignature ⟨"p", "a", "o", 7, ""⟩
        ≠ EthScript.serializeForEthereumSignature ⟨"p", "a", "x", 7, ""⟩
    ∧ EthScript.serializeForEthereumSignature ⟨"p", "a", "o", 7, ""⟩
        ≠ EthScript.serializeForEthereumSignature ⟨"p", "a", "o", 8, ""⟩
    ∧ SolScript.serializeForSolanaSignature ⟨"p", "s", "o", 7, ""⟩
        ≠ SolScript.serializeForSolanaSignature ⟨"p", "t", "o", 7, ""⟩
    ∧ SolScript.serializeForSolanaSignature ⟨"p", "s", "o", 7, ""⟩
        ≠ SolScript.serializeForSolanaSignature ⟨"q", "s", "o", 7, ""⟩
    ∧ SolScript.serializeForSolanaSignature ⟨"p", "s", "o", 7, ""⟩
        ≠ SolScript.serializeForSolanaSignature ⟨"p", "s", "x", 7, ""⟩
    ∧ SolScript.serializeForSolanaSignature ⟨"p", "s", "o", 7, ""⟩
        ≠ SolScript.serializeForSolanaSignature ⟨"p", "s", "o", 8, ""⟩ :=
  ⟨serializers_deterministic_discriminating.2.2.1 _ _ rfl rfl rfl (by decide),
   serializers_deterministic_discriminating.2.2.2.1 _ _ rfl rfl rfl (by decide),
   serializers_deterministic_discriminating.2.2.2.2.1 _ _ rfl rfl rfl (by decide),
   serializers_deterministic_discriminating.2.2.2.2.2.1 _ _ rfl rfl rfl (by decide),
   serializers_deterministic_discriminating.2.2.2.2.2.2.1 _ _ rfl rfl rfl (by decide),
   serializers_deterministic_discriminating.2.2.2.2.2.2.2.1 _ _ rfl rfl rfl (by decide),
   serializers_deterministic_discriminating.2.2.2.2.2.2.2.2.1 _ _ rfl rfl rfl (by decide),
   serializers_deterministic_discriminating.2.2.2.2.2.2.2.2.2 _ _ rfl rfl rfl (by decide)⟩

end SessionsScripts
